import Mathlib

/-!
Verification of PolyFit against its specification.

The viewer camera (`code/3rd_QGLViewer/QGLViewer/camera.h`) is embedded from the
header's inline member functions. The reconstruction core (hypothesis generation
and face selection) is not part of the source snapshot — only build scripts and
the camera header are — so the core is modelled from the specification, with the
geometry kernel and the MIP solver kept abstract exactly as the specification
declares them external collaborators.
-/

namespace PolyFit

/-! ### Camera state (camera.h)

`qreal` fields are modelled as real numbers, `int` fields as integers, `bool`
fields as `Bool`.  The two buffered 4×4 matrices are modelled as functions
`Fin 16 → ℝ`; the `frame_` pointer and the key-frame interpolator map are
outside the numeric state and are omitted. -/

/-- A 3D vector, as `qglviewer::Vec` (components are `qreal`). -/
structure Vec3 where
  x : ℝ
  y : ℝ
  z : ℝ

/-- Camera projection type, `Camera::Type` in camera.h. -/
inductive CameraType
  | PERSPECTIVE
  | ORTHOGRAPHIC
deriving DecidableEq

/-- The private numeric state of `qglviewer::Camera` (camera.h).
`ioDistance` is the C++ field `IODistance_`. -/
structure Camera where
  screenWidth : ℤ
  screenHeight : ℤ
  fieldOfView : ℝ
  sceneCenter : Vec3
  sceneRadius : ℝ
  zNearCoef : ℝ
  zClippingCoef : ℝ
  orthoCoef : ℝ
  devicePixelRatio : ℝ
  type : CameraType
  modelViewMatrix : Fin 16 → ℝ
  modelViewMatrixIsUpToDate : Bool
  projectionMatrix : Fin 16 → ℝ
  projectionMatrixIsUpToDate : Bool
  ioDistance : ℝ
  focusDistance : ℝ
  physicalScreenWidth : ℝ

/-- `Camera::aspectRatio()`: `screenWidth_ / static_cast<qreal>(screenHeight_)`. -/
noncomputable def Camera.aspectRatio (c : Camera) : ℝ :=
  (c.screenWidth : ℝ) / (c.screenHeight : ℝ)

/-- `Camera::horizontalFieldOfView()`:
`2.0 * atan(tan(fieldOfView() / 2.0) * aspectRatio())`. -/
noncomputable def Camera.horizontalFieldOfView (c : Camera) : ℝ :=
  2 * Real.arctan (Real.tan (c.fieldOfView / 2) * c.aspectRatio)

/-- Modelled from the spec: `Camera::setFieldOfView` is declared in camera.h but
its body (camera.cpp) is missing from the snapshot.  Per the camera.h
documentation it stores the given vertical field of view, sets `focusDistance()`
to `sceneRadius() / tan(fieldOfView() / 2)`, and invalidates the buffered
projection matrix. -/
noncomputable def Camera.setFieldOfView (c : Camera) (fov : ℝ) : Camera :=
  { c with
    fieldOfView := fov
    focusDistance := c.sceneRadius / Real.tan (fov / 2)
    projectionMatrixIsUpToDate := false }

/-- `Camera::setHorizontalFieldOfView(hfov)`:
`setFieldOfView(2.0 * atan(tan(hfov / 2.0) / aspectRatio()))`. -/
noncomputable def Camera.setHorizontalFieldOfView (c : Camera) (hfov : ℝ) : Camera :=
  c.setFieldOfView (2 * Real.arctan (Real.tan (hfov / 2) / c.aspectRatio))

/-- Modelled from the spec: `Camera::setScreenWidthAndHeight` is declared in
camera.h but its body (camera.cpp) is missing from the snapshot.  Per the
camera.h documentation it stores the screen dimensions and invalidates the
buffered projection matrix. -/
def Camera.setScreenWidthAndHeight (c : Camera) (width height : ℤ) : Camera :=
  { c with
    screenWidth := width
    screenHeight := height
    projectionMatrixIsUpToDate := false }

/-- Conversion of a C++ floating value to `int` truncates toward zero. -/
noncomputable def cppInt (x : ℝ) : ℤ :=
  if 0 ≤ x then ⌊x⌋ else ⌈x⌉

/-- `Camera::setAspectRatio(aspect)`:
`setScreenWidthAndHeight(int(100.0 * aspect), 100)`. -/
noncomputable def Camera.setAspectRatio (c : Camera) (aspect : ℝ) : Camera :=
  c.setScreenWidthAndHeight (cppInt (100 * aspect)) 100

/-- `Camera::setZNearCoefficient(coef)`:
`zNearCoef_ = coef; projectionMatrixIsUpToDate_ = false;`. -/
def Camera.setZNearCoefficient (c : Camera) (coef : ℝ) : Camera :=
  { c with zNearCoef := coef, projectionMatrixIsUpToDate := false }

/-- `Camera::setZClippingCoefficient(coef)`:
`zClippingCoef_ = coef; projectionMatrixIsUpToDate_ = false;`. -/
def Camera.setZClippingCoefficient (c : Camera) (coef : ℝ) : Camera :=
  { c with zClippingCoef := coef, projectionMatrixIsUpToDate := false }

/-- A concrete camera used to instantiate universally quantified statements. -/
noncomputable def sampleCamera : Camera where
  screenWidth := 200
  screenHeight := 100
  fieldOfView := Real.pi / 4
  sceneCenter := ⟨0, 0, 0⟩
  sceneRadius := 1
  zNearCoef := 5 / 1000
  zClippingCoef := Real.sqrt 3
  orthoCoef := Real.tan (Real.pi / 8)
  devicePixelRatio := 1
  type := CameraType.PERSPECTIVE
  modelViewMatrix := fun _ => 0
  modelViewMatrixIsUpToDate := false
  projectionMatrix := fun _ => 0
  projectionMatrixIsUpToDate := false
  ioDistance := 62 / 1000
  focusDistance := 1
  physicalScreenWidth := 1 / 2

/-! ### Core data model (spec-modelled)

The reconstruction core of the repository (hypothesis generation, scoring and
face selection) is absent from the source snapshot; everything below is
modelled from the specification.  The exact kernel's rational arithmetic is
modelled by `ℚ`. -/

/-- Modelled from the spec: an exact 3D point ("Vertex v: an exact point in ℝ³;
key under exact equality"); the missing core sources store these via the exact
kernel, modelled by `ℚ`. -/
structure Point3 where
  x : ℚ
  y : ℚ
  z : ℚ
deriving DecidableEq

/-- Modelled from the spec: a 2D point of a segment's in-plane parametrization
(§3, planar segment frame); the core sources holding it are missing. -/
structure Point2 where
  u : ℚ
  v : ℚ
deriving DecidableEq

/-- Modelled from the spec: a 2D triangle of an alpha-shape mesh (§3, §4.1);
the core sources holding it are missing. -/
structure Tri2 where
  p : Point2
  q : Point2
  r : Point2
deriving DecidableEq

/-- Modelled from the spec: a supporting plane `a·x + b·y + c·z + d = 0`
(§6.1); the core sources holding it are missing. -/
structure Plane where
  a : ℚ
  b : ℚ
  c : ℚ
  d : ℚ
deriving DecidableEq

/-- Modelled from the spec: a planar segment — supporting plane, member points,
optional color (§3, §6.1); the core sources holding it are missing. -/
structure Segment where
  plane : Plane
  points : List Point3
  color : Option (ℚ × ℚ × ℚ)
deriving DecidableEq

/-- Modelled from the spec: the enumerated configuration (§6.4); the core
sources holding it are missing. -/
structure Config where
  fit_weight : ℚ
  coverage_weight : ℚ
  complexity_weight : ℚ
  alpha_scale : ℚ
  residual_tolerance : ℚ
  bbox_margin : ℚ
  include_bbox_faces : Bool
  solver_time_limit_seconds : ℚ
  solver_gap : ℚ
deriving DecidableEq

/-- Modelled from the spec: the inflated bounding box B (§4.2 step 1); the
core sources holding it are missing. -/
structure Box where
  lo : Point3
  hi : Point3
deriving DecidableEq

/-- Modelled from the spec: an arrangement cell as delivered by the exact
kernel — supporting-plane index, exact convex polygon boundary, and whether
the cell lies on the bounding box (§4.2); the core sources holding it are
missing. -/
structure RawFace where
  planeIdx : ℕ
  poly : List Point3
  isBBox : Bool
deriving DecidableEq

/-- Modelled from the spec: a scored candidate face (§3); the core sources
holding it are missing. -/
structure CFace where
  planeIdx : ℕ
  poly : List Point3
  isBBox : Bool
  supp : ℚ
  conf : ℚ
  area : ℚ
deriving DecidableEq

/-- Modelled from the spec: a candidate edge with its exact endpoint pair and
the indices of its incident candidate faces (§3); the core sources holding it
are missing. -/
structure CEdge where
  ends : Point3 × Point3
  faces : List ℕ
deriving DecidableEq

/-- Modelled from the spec: the hypothesis graph H = (V, E, F) together with
the total alpha-shape area used by the coverage objective term (§3, §4.3); the
core sources holding it are missing. -/
structure HGraph where
  vertices : List Point3
  edges : List CEdge
  faces : List CFace
  areaTotal : ℚ
deriving DecidableEq

/-- Modelled from the spec: the empty hypothesis graph (§4.2 Failure). -/
def emptyGraph : HGraph :=
  { vertices := [], edges := [], faces := [], areaTotal := 0 }

/-- Modelled from the spec: the geometry kernel is an external collaborator
("numeric kernels for exact arithmetic ... treated as an abstract
predicates-and-constructions module", §1).  The operations the core consumes:
plane projection to the 2D frame, mean point spacing, the Delaunay/alpha-shape
filter, the planar arrangement of the supporting planes clipped to the
bounding box (`none` signalling an unrecoverable kernel condition),
point-in-polygon tests, polygon areas and clipped areas. -/
structure GeomKernel where
  project : Plane → Point3 → Point2
  meanSpacing : List Point2 → ℚ
  delaunayAlpha : ℚ → List Point2 → List Tri2
  arrange : List Plane → Box → Option (List RawFace)
  insideFace : Point3 → RawFace → Bool
  faceArea : RawFace → ℚ
  clipArea : Tri2 → RawFace → ℚ
  triArea : Tri2 → ℚ

/-- Placeholder segment for out-of-range index lookups. -/
def dummySegment : Segment :=
  { plane := ⟨0, 0, 1, 0⟩, points := [], color := none }

/-- Placeholder face for out-of-range index lookups. -/
def dummyFace : CFace :=
  { planeIdx := 0, poly := [], isBBox := false, supp := 0, conf := 0, area := 0 }

/-! ### Alpha-shape boundary extractor (spec-modelled, §4.1) -/

/-- Modelled from the spec: 2D collinearity of a point list — every signed
triangle area vanishes (§4.1 Failure); the core sources holding this test are
missing. -/
def collinear2 (ps : List Point2) : Bool :=
  ps.all fun a => ps.all fun b => ps.all fun c =>
    (b.u - a.u) * (c.v - a.v) - (b.v - a.v) * (c.u - a.u) == 0

/-- Modelled from the spec: the alpha-shape boundary extractor (§4.1); its
sources are missing.  With fewer than 3 projected points, or all points
collinear in 2D, it returns the empty mesh; otherwise it hands the projected
points to the kernel's Delaunay/alpha filter with
α = alpha_scale · mean nearest-neighbour spacing. -/
def alphaShape (K : GeomKernel) (cfg : Config) (s : Segment) : List Tri2 :=
  if (s.points.map (K.project s.plane)).length < 3 ||
      collinear2 (s.points.map (K.project s.plane)) then []
  else
    K.delaunayAlpha
      (cfg.alpha_scale * K.meanSpacing (s.points.map (K.project s.plane)))
      (s.points.map (K.project s.plane))

/-! ### Per-face scoring (spec-modelled, §4.2) -/

/-- Modelled from the spec: squared point-to-plane residual
`d(p, π)² = (a·x + b·y + c·z + d)² / (a² + b² + c²)`; the core sources holding
it are missing. -/
def residual2 (pl : Plane) (p : Point3) : ℚ :=
  (pl.a * p.x + pl.b * p.y + pl.c * p.z + pl.d) ^ 2 /
    (pl.a ^ 2 + pl.b ^ 2 + pl.c ^ 2)

/-- Modelled from the spec: the support term supp(f) — the sum over member
points projecting into f of `max 0 (1 − d(p, πf)²/ε²)` (§4.2); the core
sources holding it are missing. -/
def suppOf (K : GeomKernel) (cfg : Config) (s : Segment) (r : RawFace) : ℚ :=
  ((s.points.filter fun p => K.insideFace p r).map fun p =>
    max 0 (1 - residual2 s.plane p / cfg.residual_tolerance ^ 2)).sum

/-- Modelled from the spec: the confidence term conf(f) — the area fraction of
f covered by the alpha-shape triangles of its segment, computed by 2D clipping
(§4.2); the core sources holding it are missing. -/
def confOf (K : GeomKernel) (A : List Tri2) (r : RawFace) : ℚ :=
  ((A.map fun t => K.clipArea t r).sum) / K.faceArea r

/-- Modelled from the spec: attach the scores to a raw arrangement cell
(§4.2 "Per-face scoring"); the core sources holding it are missing. -/
def scoreFace (K : GeomKernel) (cfg : Config) (segs : List Segment)
    (r : RawFace) : CFace :=
  { planeIdx := r.planeIdx
    poly := r.poly
    isBBox := r.isBBox
    supp := suppOf K cfg (segs.getD r.planeIdx dummySegment) r
    conf := confOf K (alphaShape K cfg (segs.getD r.planeIdx dummySegment)) r
    area := K.faceArea r }

/-! ### Deterministic identifier ordering (spec-modelled, §5 and §8)

Face, edge and vertex identifiers are assigned in lexicographic order of
(plane index, exact-coordinate key); keys are flattened into rational lists
and compared by the lexicographic list order. -/

/-- Exact-coordinate key of a vertex. -/
def ptKey (p : Point3) : List ℚ :=
  [p.x, p.y, p.z]

/-- Lexicographic vertex order (exact-coordinate key). -/
def vertLe (p q : Point3) : Prop :=
  ptKey p ≤ ptKey q

/-- Key of a candidate face: plane index, then the exact boundary coordinates. -/
def faceKey (f : CFace) : List ℚ :=
  (f.planeIdx : ℚ) :: (f.poly.map ptKey).foldr (· ++ ·) []

/-- Lexicographic candidate-face order (plane index, exact-coordinate key). -/
def faceLe (f g : CFace) : Prop :=
  faceKey f ≤ faceKey g

/-- Key of an unordered endpoint pair. -/
def pairKey (pq : Point3 × Point3) : List ℚ :=
  ptKey pq.1 ++ ptKey pq.2

/-- Lexicographic order on endpoint pairs. -/
def pairLe (a b : Point3 × Point3) : Prop :=
  pairKey a ≤ pairKey b

/-- Lexicographic candidate-edge order (exact endpoint key). -/
def edgeLe (e f : CEdge) : Prop :=
  pairKey e.ends ≤ pairKey f.ends

instance : DecidableRel vertLe :=
  fun p q => inferInstanceAs (Decidable (ptKey p ≤ ptKey q))

instance : DecidableRel faceLe :=
  fun f g => inferInstanceAs (Decidable (faceKey f ≤ faceKey g))

instance : DecidableRel pairLe :=
  fun a b => inferInstanceAs (Decidable (pairKey a ≤ pairKey b))

instance : DecidableRel edgeLe :=
  fun e f => inferInstanceAs (Decidable (pairKey e.ends ≤ pairKey f.ends))

instance : IsTotal Point3 vertLe :=
  ⟨fun p q => le_total (ptKey p) (ptKey q)⟩

instance : IsTrans Point3 vertLe :=
  ⟨fun _ _ _ h1 h2 => le_trans h1 h2⟩

instance : IsTotal CFace faceLe :=
  ⟨fun f g => le_total (faceKey f) (faceKey g)⟩

instance : IsTrans CFace faceLe :=
  ⟨fun _ _ _ h1 h2 => le_trans h1 h2⟩

instance : IsTotal (Point3 × Point3) pairLe :=
  ⟨fun a b => le_total (pairKey a) (pairKey b)⟩

instance : IsTrans (Point3 × Point3) pairLe :=
  ⟨fun _ _ _ h1 h2 => le_trans h1 h2⟩

instance : IsTotal CEdge edgeLe :=
  ⟨fun e f => le_total (pairKey e.ends) (pairKey f.ends)⟩

instance : IsTrans CEdge edgeLe :=
  ⟨fun _ _ _ h1 h2 => le_trans h1 h2⟩

/-! ### Hypothesis generator (spec-modelled, §4.2) -/

/-- Modelled from the spec: the unordered exact-endpoint key of a boundary
edge ("use an exact-endpoint pair (unordered) as the edge key", §9); the core
sources holding it are missing. -/
def normPair (p q : Point3) : Point3 × Point3 :=
  if ptKey p ≤ ptKey q then (p, q) else (q, p)

/-- Modelled from the spec: the cyclic boundary edges of a polygon as
normalized endpoint pairs (§4.2 step 5); the core sources holding it are
missing. -/
def boundPairs (poly : List Point3) : List (Point3 × Point3) :=
  (poly.zip (poly.rotate 1)).map fun pq => normPair pq.1 pq.2

/-- Modelled from the spec: assembly of the hypothesis graph from arrangement
cells (§4.2 steps 5–6 and §5 Ordering); the core sources holding it are
missing.  Faces, vertices and edges are keyed exactly and listed in
lexicographic order; edges identical across planes are merged and record all
incident faces. -/
def buildGraph (K : GeomKernel) (cfg : Config) (segs : List Segment)
    (raws : List RawFace) : HGraph :=
  let faces := List.insertionSort faceLe (raws.map (scoreFace K cfg segs))
  let verts :=
    List.insertionSort vertLe ((faces.map CFace.poly).foldr (· ++ ·) []).dedup
  let ekeys :=
    List.insertionSort pairLe
      ((faces.map fun f => boundPairs f.poly).foldr (· ++ ·) []).dedup
  let edges := ekeys.map fun pq =>
    { ends := pq
      faces := (List.range faces.length).filter fun i =>
        pq ∈ boundPairs ((faces.getD i dummyFace).poly) : CEdge }
  { vertices := verts, edges := edges, faces := faces,
    areaTotal := (segs.map fun s => ((alphaShape K cfg s).map K.triArea).sum).sum }

/-- Modelled from the spec: two planes are parallel when their normals are
linearly dependent (§4.2 Degeneracies); the core sources holding this
predicate are missing. -/
def parallelPlanes (p q : Plane) : Bool :=
  (p.a * q.b - p.b * q.a == 0) && (p.a * q.c - p.c * q.a == 0) &&
    (p.b * q.c - p.c * q.b == 0)

/-- Modelled from the spec: planes are coincident when all four coefficients
are proportional; the core sources holding this predicate are missing. -/
def coincidentPlanes (p q : Plane) : Bool :=
  parallelPlanes p q && (p.a * q.d - p.d * q.a == 0) &&
    (p.b * q.d - p.d * q.b == 0) && (p.c * q.d - p.d * q.c == 0)

/-- Modelled from the spec: the degenerate plane sets on which the
arrangement yields zero candidate faces — every pair parallel and some pair
non-coincident (§4.2 Failure); the core sources holding this test are
missing. -/
def allParallelNoncoincident (planes : List Plane) : Bool :=
  (planes.all fun p => planes.all fun q => parallelPlanes p q) &&
    (planes.any fun p => planes.any fun q => !coincidentPlanes p q)

/-- Smallest element of a rational list (0 for the empty list). -/
def listMin (l : List ℚ) : ℚ :=
  match l with
  | [] => 0
  | a :: as => as.foldr min a

/-- Largest element of a rational list (0 for the empty list). -/
def listMax (l : List ℚ) : ℚ :=
  match l with
  | [] => 0
  | a :: as => as.foldr max a

/-- Modelled from the spec: the axis-aligned bounding box of all input points,
each extent inflated by the configured margin (§4.2 step 1); the core sources
holding it are missing. -/
def bbox (cfg : Config) (segs : List Segment) : Box :=
  let pts := (segs.map Segment.points).foldr (· ++ ·) []
  let xs := pts.map Point3.x
  let ys := pts.map Point3.y
  let zs := pts.map Point3.z
  let pad := fun (lo hi : ℚ) => cfg.bbox_margin * (hi - lo)
  { lo := ⟨listMin xs - pad (listMin xs) (listMax xs),
           listMin ys - pad (listMin ys) (listMax ys),
           listMin zs - pad (listMin zs) (listMax zs)⟩
    hi := ⟨listMax xs + pad (listMin xs) (listMax xs),
           listMax ys + pad (listMin ys) (listMax ys),
           listMax zs + pad (listMin zs) (listMax zs)⟩ }

/-- Modelled from the spec: the hypothesis generator (§4.2); its sources are
missing.  With fewer than two supporting planes, or all planes parallel and
some pair non-coincident, the arrangement yields zero faces and the empty
graph is returned; otherwise the exact kernel computes the arrangement cells
(`none` on an unrecoverable condition) and the graph is assembled from them. -/
def hypothesize (K : GeomKernel) (cfg : Config) (segs : List Segment) :
    Option HGraph :=
  if (segs.map Segment.plane).length < 2 ||
      allParallelNoncoincident (segs.map Segment.plane) then some emptyGraph
  else
    match K.arrange (segs.map Segment.plane) (bbox cfg segs) with
    | none => none
    | some raws => some (buildGraph K cfg segs raws)

/-! ### Face selection binary program (spec-modelled, §4.3) -/

/-- Modelled from the spec: the number of selected faces incident to a
candidate edge, `Σ_{f incident to e} x_f` (§4.3); the core sources holding it
are missing. -/
def countSelected (x : List Bool) (e : CEdge) : ℕ :=
  (e.faces.filter fun i => x.getD i false).length

/-- Modelled from the spec: the hard manifold equalities
`Σ_{f incident to e} x_f − 2·z_e = 0` with `z_e ∈ {0,1}` (§4.3 constraint 1);
the core sources holding them are missing. -/
def manifoldOk (H : HGraph) (x z : List Bool) : Prop :=
  x.length = H.faces.length ∧ z.length = H.edges.length ∧
    ∀ i : ℕ, i < H.edges.length →
      countSelected x (H.edges.getD i ⟨(⟨0, 0, 0⟩, ⟨0, 0, 0⟩), []⟩) =
        2 * cond (z.getD i false) 1 0

/-- Modelled from the spec: the distinct supporting planes of the selected
faces incident to an edge; the core sources holding this are missing. -/
def selectedPlanes (H : HGraph) (x : List Bool) (e : CEdge) : List ℕ :=
  ((e.faces.filter fun i => x.getD i false).map fun i =>
    (H.faces.getD i dummyFace).planeIdx).dedup

/-- Modelled from the spec: the value the sharp-edge variable y_e must take —
1 iff exactly two incident faces are selected and they lie on different
supporting planes (§4.3 constraint 2); the core sources holding the
linearization are missing. -/
def sharpBit (H : HGraph) (x : List Bool) (e : CEdge) : Bool :=
  (countSelected x e == 2) && decide (2 ≤ (selectedPlanes H x e).length)

/-- Modelled from the spec: the sharp-edge linearization constraints (§4.3
constraint 2); the core sources holding them are missing. -/
def sharpLinkOk (H : HGraph) (x y : List Bool) : Prop :=
  y.length = H.edges.length ∧
    ∀ i : ℕ, i < H.edges.length →
      y.getD i false = sharpBit H x (H.edges.getD i ⟨(⟨0, 0, 0⟩, ⟨0, 0, 0⟩), []⟩)

/-- Modelled from the spec: bounding-box faces are forbidden (`x_f = 0`
forced) unless the configuration includes them (§4.3 constraint 3); the core
sources holding this are missing. -/
def bboxOk (cfg : Config) (H : HGraph) (x : List Bool) : Prop :=
  cfg.include_bbox_faces = false →
    ∀ i : ℕ, i < H.faces.length →
      (H.faces.getD i dummyFace).isBBox = true → x.getD i false = false

/-- Modelled from the spec: feasibility of a solution of the binary program
(§4.3 Constraints); the core sources holding the formulation are missing. -/
def feasible (cfg : Config) (H : HGraph) (x y z : List Bool) : Prop :=
  manifoldOk H x z ∧ sharpLinkOk H x y ∧ bboxOk cfg H x

/-- Modelled from the spec: an edge is a sharp-edge candidate when its
incident faces lie on at least two distinct supporting planes (§3, §4.3); the
core sources holding this are missing. -/
def isSharpCandidate (H : HGraph) (e : CEdge) : Bool :=
  decide (2 ≤ ((e.faces.map fun i => (H.faces.getD i dummyFace).planeIdx).dedup).length)

/-- Modelled from the spec: the sharp-edge candidates of a hypothesis graph. -/
def sharpEdges (H : HGraph) : List CEdge :=
  H.edges.filter (isSharpCandidate H)

/-- Modelled from the spec: `supp_total = Σ_f supp(f)` (§4.3 Objective). -/
def suppTotal (H : HGraph) : ℚ :=
  (H.faces.map CFace.supp).sum

/-- Modelled from the spec: `Σ_f supp(f)·x_f` (§4.3 Objective). -/
def suppSel (H : HGraph) (x : List Bool) : ℚ :=
  ((H.faces.zip x).map fun p => cond p.2 p.1.supp 0).sum

/-- Modelled from the spec: `Σ_f cov(f)·x_f` with `cov(f) = conf(f)·area(f)`
(§4.2, §4.3 Objective). -/
def covSel (H : HGraph) (x : List Bool) : ℚ :=
  ((H.faces.zip x).map fun p => cond p.2 (p.1.conf * p.1.area) 0).sum

/-- Modelled from the spec: `Σ_{sharp edges e} y_e` (§4.3 Objective). -/
def sharpSel (H : HGraph) (y : List Bool) : ℕ :=
  ((H.edges.zip y).filter fun p => isSharpCandidate H p.1 && p.2).length

/-- Modelled from the spec: the face-selection objective
`λ_fit·(1 − Σ supp·x / supp_total) + λ_cmpl·(Σ_{sharp} y_e)/|sharp edges| +
λ_cov·(1 − Σ cov·x / area_total)` (§4.3 Objective); the core sources holding
it are missing. -/
def objective (cfg : Config) (H : HGraph) (x y : List Bool) : ℚ :=
  cfg.fit_weight * (1 - suppSel H x / suppTotal H) +
    cfg.complexity_weight * ((sharpSel H y : ℚ) / ((sharpEdges H).length : ℚ)) +
    cfg.coverage_weight * (1 - covSel H x / H.areaTotal)

/-! ### Solver interface and selection (spec-modelled, §4.3 and §6.3) -/

/-- Solver status, from the abstract contract §6.3. -/
inductive SolveStatus
  | optimal
  | feasibleGapReached
  | timeLimit
  | infeasible
  | solverError
deriving DecidableEq

/-- Modelled from the spec: what a MIP solver hands back — a status and the
values of the face variables x, the sharp-edge variables y and the manifold
auxiliaries z (§6.3); the solver backend is an external collaborator. -/
structure SolveResult where
  status : SolveStatus
  x : List Bool
  y : List Bool
  z : List Bool
  objectiveValue : ℚ
deriving DecidableEq

/-- An abstract deterministic MIP solver backend (external collaborator,
§6.3). -/
abbrev Solver := HGraph → Config → SolveResult

/-- Modelled from the spec: the output polyhedral mesh — vertex list and faces
as exact polygons (§6.2); the core sources holding it are missing. -/
structure Mesh where
  vertices : List Point3
  faces : List (List Point3)
deriving DecidableEq

/-- The empty mesh. -/
def emptyMesh : Mesh :=
  { vertices := [], faces := [] }

/-- Kinds of diagnostic notes surfaced next to a returned mesh (§7). -/
inductive DiagNote
  | solved
  | emptyHypothesis
  | numericalInfeasibility
deriving DecidableEq

/-- Diagnostics returned next to the mesh (§6.2). -/
structure Diag where
  solverStatus : SolveStatus
  selectedFaces : ℕ
  objectiveValue : ℚ
  note : DiagNote
deriving DecidableEq

/-- Diagnostic for an empty hypothesis graph (§7 EmptyResult). -/
def emptyDiag : Diag :=
  { solverStatus := SolveStatus.optimal, selectedFaces := 0,
    objectiveValue := 0, note := DiagNote.emptyHypothesis }

/-- Diagnostic for a numerical infeasibility report (§4.3 Failure). -/
def infeasibleDiag : Diag :=
  { solverStatus := SolveStatus.infeasible, selectedFaces := 0,
    objectiveValue := 0, note := DiagNote.numericalInfeasibility }

/-- The error kinds surfaced by the core (§7); `EmptyResult` is non-fatal and
is reported through diagnostics, not as an error. -/
inductive RError
  | invalidInput
  | geometryFailure
  | solverError
deriving DecidableEq

/-- Modelled from the spec: the mesh induced by the selected faces
(§4.3 Output assembly); the core sources holding it are missing. -/
def assembleMesh (H : HGraph) (x : List Bool) : Mesh :=
  let sel := ((H.faces.zip x).filter fun p => p.2).map fun p => p.1.poly
  { vertices := (sel.foldr (· ++ ·) []).dedup, faces := sel }

/-- Modelled from the spec: the face-selection step (§4.3, §7); its sources
are missing.  A `solverError` status is a fatal binding failure; an
`infeasible` report can only be numerical, so the selector surfaces a
diagnostic and returns the empty mesh; any other status materializes the
selected faces. -/
def faceSelect (solver : Solver) (cfg : Config) (H : HGraph) :
    Except RError (Mesh × Diag) :=
  match (solver H cfg).status with
  | SolveStatus.solverError => Except.error RError.solverError
  | SolveStatus.infeasible => Except.ok (emptyMesh, infeasibleDiag)
  | st =>
      Except.ok (assembleMesh H (solver H cfg).x,
        { solverStatus := st,
          selectedFaces := ((solver H cfg).x.filter id).length,
          objectiveValue := (solver H cfg).objectiveValue,
          note := DiagNote.solved })

/-! ### Orchestration façade (spec-modelled, §4.4 and §7) -/

/-- Modelled from the spec: input validation (§7 InvalidInput) — at least one
segment, each with at least 3 points and a unit plane normal, and the three
objective weights summing to 1; the core sources holding it are missing. -/
def validInput (cfg : Config) (segs : List Segment) : Bool :=
  (1 ≤ segs.length) &&
    segs.all (fun s => 3 ≤ s.points.length) &&
    segs.all (fun s => s.plane.a ^ 2 + s.plane.b ^ 2 + s.plane.c ^ 2 == 1) &&
    (cfg.fit_weight + cfg.coverage_weight + cfg.complexity_weight == 1)

/-- Modelled from the spec: the synchronous entry point `reconstruct`
(§4.4, §7); its sources are missing.  Invalid input and kernel or solver
failures are the only errors; an empty hypothesis graph is non-fatal and
yields the empty mesh with a descriptive diagnostic. -/
def reconstruct (K : GeomKernel) (solver : Solver) (cfg : Config)
    (segs : List Segment) : Except RError (Mesh × Diag) :=
  if validInput cfg segs then
    match hypothesize K cfg segs with
    | none => Except.error RError.geometryFailure
    | some H =>
        if H.faces.isEmpty then Except.ok (emptyMesh, emptyDiag)
        else faceSelect solver cfg H
  else Except.error RError.invalidInput

/-- Modelled from the spec: the caller-visible state, a slot holding the last
reconstruction result (§7 Propagation: "No partial mutation is visible to the
caller; the function is transactional"); a run writes the slot only on
success. -/
structure CallerState where
  lastResult : Option (Mesh × Diag)
deriving DecidableEq

/-- Modelled from the spec: `reconstruct` acting on the caller-visible state
(§7 Propagation); the state is updated only when a mesh is returned. -/
def reconstructSt (K : GeomKernel) (solver : Solver) (cfg : Config)
    (segs : List Segment) (σ : CallerState) :
    Except RError (Mesh × Diag) × CallerState :=
  match reconstruct K solver cfg segs with
  | Except.ok md => (Except.ok md, { lastResult := some md })
  | Except.error e => (Except.error e, σ)

/-! ### Concrete instances used by witnesses -/

/-- The default configuration (§6.4). -/
def cfg0 : Config :=
  { fit_weight := 43 / 100, coverage_weight := 27 / 100,
    complexity_weight := 30 / 100, alpha_scale := 5, residual_tolerance := 1,
    bbox_margin := 5 / 100, include_bbox_faces := false,
    solver_time_limit_seconds := 0, solver_gap := 0 }

/-- A configuration with all objective weight on complexity. -/
def cfg1 : Config :=
  { fit_weight := 0, coverage_weight := 0, complexity_weight := 1,
    alpha_scale := 5, residual_tolerance := 1, bbox_margin := 5 / 100,
    include_bbox_faces := false, solver_time_limit_seconds := 0,
    solver_gap := 0 }

/-- A concrete hypothesis graph: two faces on distinct planes sharing one
edge. -/
def sampleGraph : HGraph :=
  { vertices := [⟨0, 0, 0⟩, ⟨1, 0, 0⟩, ⟨0, 1, 0⟩, ⟨0, 0, 1⟩]
    edges := [{ ends := (⟨0, 0, 0⟩, ⟨1, 0, 0⟩), faces := [0, 1] }]
    faces :=
      [{ planeIdx := 0, poly := [⟨0, 0, 0⟩, ⟨1, 0, 0⟩, ⟨0, 1, 0⟩],
         isBBox := false, supp := 1, conf := 1, area := 1 },
       { planeIdx := 1, poly := [⟨0, 0, 0⟩, ⟨1, 0, 0⟩, ⟨0, 0, 1⟩],
         isBBox := false, supp := 1, conf := 1, area := 1 }]
    areaTotal := 2 }

/-- A trivial concrete geometry kernel used to instantiate universally
quantified statements. -/
def trivKernel : GeomKernel :=
  { project := fun _ p => ⟨p.x, p.y⟩
    meanSpacing := fun _ => 1
    delaunayAlpha := fun _ _ => []
    arrange := fun _ _ => some []
    insideFace := fun _ _ => true
    faceArea := fun _ => 1
    clipArea := fun _ _ => 0
    triArea := fun _ => 0 }

/-- A concrete solver that always reports infeasibility. -/
def solverInf : Solver :=
  fun _ _ => { status := SolveStatus.infeasible, x := [], y := [], z := [],
               objectiveValue := 0 }

/-- A concrete well-formed planar segment on the plane z = 0. -/
def sampleSegment : Segment :=
  { plane := ⟨0, 0, 1, 0⟩
    points := [⟨0, 0, 0⟩, ⟨1, 0, 0⟩, ⟨0, 1, 0⟩]
    color := none }

/-- A concrete degenerate segment with only two points. -/
def degenerateSegment : Segment :=
  { plane := ⟨0, 0, 1, 0⟩
    points := [⟨0, 0, 0⟩, ⟨1, 1, 0⟩]
    color := none }

instance (H : HGraph) (x z : List Bool) : Decidable (manifoldOk H x z) := by
  unfold manifoldOk
  infer_instance

instance (H : HGraph) (x y : List Bool) : Decidable (sharpLinkOk H x y) := by
  unfold sharpLinkOk
  infer_instance

instance (cfg : Config) (H : HGraph) (x : List Bool) :
    Decidable (bboxOk cfg H x) := by
  unfold bboxOk
  infer_instance

instance (cfg : Config) (H : HGraph) (x y z : List Bool) :
    Decidable (feasible cfg H x y z) := by
  unfold feasible
  infer_instance

/-! ### Helper lemmas -/

lemma cppInt_intCast (n : ℤ) : cppInt (n : ℝ) = n := by
  unfold cppInt
  split <;> simp

lemma getD_replicate_self (n i : ℕ) (b : Bool) :
    (List.replicate n b).getD i b = b := by
  rcases lt_or_le i n with h | h
  · rw [List.getD_eq_getElem _ _ (by simpa using h)]
    simp
  · exact List.getD_eq_default _ _ (by simpa using h)

lemma countSelected_zeros (n : ℕ) (e : CEdge) :
    countSelected (List.replicate n false) e = 0 := by
  have hf : (e.faces.filter fun i => (List.replicate n false).getD i false) = [] := by
    rw [List.filter_eq_nil_iff]
    intro a _
    simp [getD_replicate_self]
  simp [countSelected, hf]

lemma feasible_zeros (cfg : Config) (H : HGraph) :
    feasible cfg H (List.replicate H.faces.length false)
      (List.replicate H.edges.length false)
      (List.replicate H.edges.length false) := by
  refine ⟨⟨by simp, by simp, ?_⟩, ⟨by simp, ?_⟩, ?_⟩
  · intro i _
    rw [countSelected_zeros, getD_replicate_self]
    simp
  · intro i _
    rw [getD_replicate_self]
    simp [sharpBit, countSelected_zeros]
  · intro _ i _ _
    rw [getD_replicate_self]

lemma sharpSel_zeros (H : HGraph) (n : ℕ) :
    sharpSel H (List.replicate n false) = 0 := by
  unfold sharpSel
  have hf : ((H.edges.zip (List.replicate n false)).filter
      fun p => isSharpCandidate H p.1 && p.2) = [] := by
    rw [List.filter_eq_nil_iff]
    rintro ⟨a, b⟩ hp
    have hb : b = false := List.eq_of_mem_replicate (List.of_mem_zip hp).2
    simp [hb]
  simp [hf]

lemma alphaShape_degenerate (K : GeomKernel) (cfg : Config) (s : Segment)
    (hdeg : (s.points.map (K.project s.plane)).length < 3 ∨
      collinear2 (s.points.map (K.project s.plane)) = true) :
    alphaShape K cfg s = [] := by
  have hcond : ((s.points.map (K.project s.plane)).length < 3 ||
      collinear2 (s.points.map (K.project s.plane))) = true := by
    simp only [Bool.or_eq_true, decide_eq_true_eq]
    exact hdeg
  unfold alphaShape
  rw [if_pos hcond]

lemma faceSelect_error (solver : Solver) (cfg : Config) (H : HGraph)
    (e : RError) (h : faceSelect solver cfg H = Except.error e) :
    e = RError.solverError ∧
      (solver H cfg).status = SolveStatus.solverError := by
  unfold faceSelect at h
  cases hst : (solver H cfg).status <;> rw [hst] at h <;> simp_all

/-! ### Camera theorems (claims C8–C10) -/

/-- C8: round-trip of the horizontal field of view.  For every camera with
positive aspect ratio and every `hfov ∈ (-π, π)`, after
`setHorizontalFieldOfView(hfov)` the accessor `horizontalFieldOfView()`
returns `hfov` (exact real arithmetic). -/
theorem horizontalFieldOfView_roundTrip (c : Camera) (hfov : ℝ)
    (har : 0 < c.aspectRatio) (hlo : -Real.pi < hfov) (hhi : hfov < Real.pi) :
    (c.setHorizontalFieldOfView hfov).horizontalFieldOfView = hfov := by
  have har' : c.aspectRatio ≠ 0 := ne_of_gt har
  show 2 * Real.arctan
      (Real.tan (2 * Real.arctan (Real.tan (hfov / 2) / c.aspectRatio) / 2) *
        c.aspectRatio) = hfov
  rw [mul_div_cancel_left₀ _ (two_ne_zero), Real.tan_arctan,
    div_mul_cancel₀ _ har',
    Real.arctan_tan (by linarith) (by linarith)]
  ring

/-- Witness for C8 at the sample camera and `hfov = π/2`. -/
theorem horizontalFieldOfView_roundTrip_witness :
    0 < sampleCamera.aspectRatio ∧
      (sampleCamera.setHorizontalFieldOfView (Real.pi / 2)).horizontalFieldOfView =
        Real.pi / 2 := by
  have har : 0 < sampleCamera.aspectRatio := by
    show (0 : ℝ) < ((200 : ℤ) : ℝ) / ((100 : ℤ) : ℝ)
    norm_num
  exact ⟨har,
    horizontalFieldOfView_roundTrip sampleCamera (Real.pi / 2) har
      (by linarith [Real.pi_pos]) (by linarith [Real.pi_pos])⟩

/-- C9: the aspect-ratio round-trip truncates.  After `setAspectRatio(a)` the
camera has `screenHeight() = 100` and `screenWidth() = int(100·a)`, and
`aspectRatio()` returns `a` again iff `100·a` is an integer. -/
theorem aspectRatio_roundTrip_truncates (c : Camera) (a : ℝ) :
    (c.setAspectRatio a).screenHeight = 100 ∧
      (c.setAspectRatio a).screenWidth = cppInt (100 * a) ∧
      ((c.setAspectRatio a).aspectRatio = a ↔ ∃ n : ℤ, (n : ℝ) = 100 * a) := by
  refine ⟨rfl, rfl, ?_⟩
  have hval : (c.setAspectRatio a).aspectRatio = (cppInt (100 * a) : ℝ) / 100 := by
    show (cppInt (100 * a) : ℝ) / ((100 : ℤ) : ℝ) = (cppInt (100 * a) : ℝ) / 100
    norm_num
  rw [hval]
  constructor
  · intro h
    refine ⟨cppInt (100 * a), ?_⟩
    field_simp at h
    linarith
  · rintro ⟨n, hn⟩
    have hcn : cppInt (100 * a) = n := by
      rw [← hn, cppInt_intCast]
    rw [hcn, hn]
    ring

/-- C9 failure instance: for `a = 4/3` the round-trip does not hold, since
`aspectRatio()` comes back as `133/100`. -/
theorem aspectRatio_roundTrip_fails_at_four_thirds :
    (sampleCamera.setAspectRatio (4 / 3)).aspectRatio = 133 / 100 ∧
      (133 : ℝ) / 100 ≠ 4 / 3 := by
  constructor
  · show ((cppInt (100 * (4 / 3)) : ℤ) : ℝ) / ((100 : ℤ) : ℝ) = 133 / 100
    have h1 : (0 : ℝ) ≤ 100 * (4 / 3) := by norm_num
    have h2 : ⌊(100 : ℝ) * (4 / 3)⌋ = 133 := by
      rw [Int.floor_eq_iff]
      norm_num
    unfold cppInt
    rw [if_pos h1, h2]
    norm_num
  · norm_num

/-- C10: frame effect of the clipping-coefficient setters.
`setZNearCoefficient(coef)` sets exactly `zNearCoef_` and clears
`projectionMatrixIsUpToDate_`, leaving every other field unchanged;
`setZClippingCoefficient(coef)` symmetrically sets exactly `zClippingCoef_`
and the same staleness flag. -/
theorem setZCoefficients_frame_effect (c : Camera) (coef : ℝ) :
    ((c.setZNearCoefficient coef).zNearCoef = coef ∧
      (c.setZNearCoefficient coef).projectionMatrixIsUpToDate = false ∧
      (c.setZNearCoefficient coef).screenWidth = c.screenWidth ∧
      (c.setZNearCoefficient coef).screenHeight = c.screenHeight ∧
      (c.setZNearCoefficient coef).fieldOfView = c.fieldOfView ∧
      (c.setZNearCoefficient coef).sceneCenter = c.sceneCenter ∧
      (c.setZNearCoefficient coef).sceneRadius = c.sceneRadius ∧
      (c.setZNearCoefficient coef).zClippingCoef = c.zClippingCoef ∧
      (c.setZNearCoefficient coef).orthoCoef = c.orthoCoef ∧
      (c.setZNearCoefficient coef).devicePixelRatio = c.devicePixelRatio ∧
      (c.setZNearCoefficient coef).type = c.type ∧
      (c.setZNearCoefficient coef).modelViewMatrix = c.modelViewMatrix ∧
      (c.setZNearCoefficient coef).modelViewMatrixIsUpToDate =
        c.modelViewMatrixIsUpToDate ∧
      (c.setZNearCoefficient coef).projectionMatrix = c.projectionMatrix ∧
      (c.setZNearCoefficient coef).ioDistance = c.ioDistance ∧
      (c.setZNearCoefficient coef).focusDistance = c.focusDistance ∧
      (c.setZNearCoefficient coef).physicalScreenWidth = c.physicalScreenWidth) ∧
    ((c.setZClippingCoefficient coef).zClippingCoef = coef ∧
      (c.setZClippingCoefficient coef).projectionMatrixIsUpToDate = false ∧
      (c.setZClippingCoefficient coef).screenWidth = c.screenWidth ∧
      (c.setZClippingCoefficient coef).screenHeight = c.screenHeight ∧
      (c.setZClippingCoefficient coef).fieldOfView = c.fieldOfView ∧
      (c.setZClippingCoefficient coef).sceneCenter = c.sceneCenter ∧
      (c.setZClippingCoefficient coef).sceneRadius = c.sceneRadius ∧
      (c.setZClippingCoefficient coef).zNearCoef = c.zNearCoef ∧
      (c.setZClippingCoefficient coef).orthoCoef = c.orthoCoef ∧
      (c.setZClippingCoefficient coef).devicePixelRatio = c.devicePixelRatio ∧
      (c.setZClippingCoefficient coef).type = c.type ∧
      (c.setZClippingCoefficient coef).modelViewMatrix = c.modelViewMatrix ∧
      (c.setZClippingCoefficient coef).modelViewMatrixIsUpToDate =
        c.modelViewMatrixIsUpToDate ∧
      (c.setZClippingCoefficient coef).projectionMatrix = c.projectionMatrix ∧
      (c.setZClippingCoefficient coef).ioDistance = c.ioDistance ∧
      (c.setZClippingCoefficient coef).focusDistance = c.focusDistance ∧
      (c.setZClippingCoefficient coef).physicalScreenWidth =
        c.physicalScreenWidth) :=
  ⟨⟨rfl, rfl, rfl, rfl, rfl, rfl, rfl, rfl, rfl, rfl, rfl, rfl, rfl, rfl, rfl,
      rfl, rfl⟩,
    ⟨rfl, rfl, rfl, rfl, rfl, rfl, rfl, rfl, rfl, rfl, rfl, rfl, rfl, rfl, rfl,
      rfl, rfl⟩⟩

/-! ### Core theorems (claims C1–C7) -/

/-- C1: the manifold invariant.  For every hypothesis graph and every solution
of the face-selection program satisfying the hard manifold equalities, every
candidate edge has exactly 0 or 2 selected incident faces; and every edge
present in the output mesh (`z_e = 1`) has exactly 2. -/
theorem manifold_invariant (H : HGraph) (x z : List Bool)
    (h : manifoldOk H x z) :
    (∀ e ∈ H.edges, countSelected x e = 0 ∨ countSelected x e = 2) ∧
      ∀ i : ℕ, i < H.edges.length → z.getD i false = true →
        countSelected x (H.edges.getD i ⟨(⟨0, 0, 0⟩, ⟨0, 0, 0⟩), []⟩) = 2 := by
  obtain ⟨-, -, hcon⟩ := h
  constructor
  · intro e he
    obtain ⟨i, hlt, hi⟩ := List.mem_iff_getElem.mp he
    have hc := hcon i hlt
    rw [List.getD_eq_getElem _ _ hlt, hi] at hc
    rw [hc]
    cases z.getD i false <;> simp
  · intro i hlt hz
    have hc := hcon i hlt
    rw [hz] at hc
    simpa using hc

/-- Witness for C1 at a concrete graph and solution. -/
theorem manifold_invariant_witness :
    (∀ e ∈ sampleGraph.edges,
        countSelected [true, true] e = 0 ∨ countSelected [true, true] e = 2) ∧
      ∀ i : ℕ, i < sampleGraph.edges.length → [true].getD i false = true →
        countSelected [true, true]
          (sampleGraph.edges.getD i ⟨(⟨0, 0, 0⟩, ⟨0, 0, 0⟩), []⟩) = 2 :=
  manifold_invariant sampleGraph [true, true] [true] (by decide)

/-- C2: the all-zero selection (together with all-zero y and z) satisfies
every constraint of the binary program built from any hypothesis graph, so
infeasibility is impossible in principle; when the solver nevertheless
reports infeasibility (numerical), the selector surfaces a diagnostic and
returns the empty mesh. -/
theorem zero_selection_feasible (cfg : Config) (H : HGraph) :
    feasible cfg H (List.replicate H.faces.length false)
        (List.replicate H.edges.length false)
        (List.replicate H.edges.length false) ∧
      ∀ solver : Solver, (solver H cfg).status = SolveStatus.infeasible →
        faceSelect solver cfg H = Except.ok (emptyMesh, infeasibleDiag) := by
  refine ⟨feasible_zeros cfg H, ?_⟩
  intro solver h
  unfold faceSelect
  rw [h]

/-- Witness for C2 at a concrete graph and an infeasibility-reporting
solver. -/
theorem zero_selection_feasible_witness :
    feasible cfg0 sampleGraph (List.replicate sampleGraph.faces.length false)
        (List.replicate sampleGraph.edges.length false)
        (List.replicate sampleGraph.edges.length false) ∧
      faceSelect solverInf cfg0 sampleGraph =
        Except.ok (emptyMesh, infeasibleDiag) :=
  ⟨(zero_selection_feasible cfg0 sampleGraph).1,
    (zero_selection_feasible cfg0 sampleGraph).2 solverInf rfl⟩

/-- C3: `reconstruct` either returns a mesh with diagnostics or fails with one
of the declared error kinds, tied to the failing stage (invalid input, kernel
failure, solver failure); an empty hypothesis graph is non-fatal and yields
the empty mesh with a diagnostic; and on failure the caller-visible state is
unchanged (the function is transactional). -/
theorem reconstruct_transactional (K : GeomKernel) (solver : Solver)
    (cfg : Config) (segs : List Segment) :
    (∀ e : RError, reconstruct K solver cfg segs = Except.error e →
        (e = RError.invalidInput ∧ validInput cfg segs = false) ∨
          (e = RError.geometryFailure ∧ hypothesize K cfg segs = none) ∨
            (e = RError.solverError ∧ ∃ H, hypothesize K cfg segs = some H ∧
              (solver H cfg).status = SolveStatus.solverError)) ∧
      (∀ H, hypothesize K cfg segs = some H → H.faces = [] →
          validInput cfg segs = true →
          reconstruct K solver cfg segs = Except.ok (emptyMesh, emptyDiag)) ∧
      ∀ (σ : CallerState) (e : RError),
        reconstruct K solver cfg segs = Except.error e →
          (reconstructSt K solver cfg segs σ).2 = σ := by
  refine ⟨?_, ?_, ?_⟩
  · intro e he
    unfold reconstruct at he
    split at he
    · split at he
      · rename_i hh
        simp only [Except.error.injEq] at he
        exact Or.inr (Or.inl ⟨he.symm, hh⟩)
      · rename_i H hh
        split at he
        · exact Except.noConfusion he
        · have h2 := faceSelect_error solver cfg H e he
          exact Or.inr (Or.inr ⟨h2.1, H, hh, h2.2⟩)
    · rename_i hv
      simp only [Except.error.injEq] at he
      exact Or.inl ⟨he.symm, by simpa using hv⟩
  · intro H hh hf hv
    unfold reconstruct
    rw [if_pos hv, hh]
    simp [hf]
  · intro σ e he
    unfold reconstructSt
    rw [he]

/-- Witness for C3: an empty segment list is rejected as invalid input and
the caller state is untouched. -/
theorem reconstruct_transactional_witness :
    validInput cfg0 [] = false ∧
      (reconstructSt trivKernel solverInf cfg0 [] { lastResult := none }).2 =
        { lastResult := none } := by
  have herr : reconstruct trivKernel solverInf cfg0 [] =
      Except.error RError.invalidInput := rfl
  refine ⟨?_, (reconstruct_transactional trivKernel solverInf cfg0 []).2.2
    { lastResult := none } RError.invalidInput herr⟩
  rcases (reconstruct_transactional trivKernel solverInf cfg0 []).1
      RError.invalidInput herr with h | h | h
  · exact h.2
  · exact absurd h.1 (by decide)
  · exact absurd h.1 (by decide)

/-- C4: determinism.  Reconstruction and face selection are functions of their
inputs (two runs with identical configuration and a deterministic solver give
identical results), and the hypothesis graph lists its faces, vertices and
edges in the deterministic lexicographic order of (plane index,
exact-coordinate key). -/
theorem deterministic_reconstruction (K : GeomKernel) (solver : Solver)
    (cfg : Config) (segs : List Segment) :
    reconstruct K solver cfg segs = reconstruct K solver cfg segs ∧
      (∀ H : HGraph, faceSelect solver cfg H = faceSelect solver cfg H) ∧
      ∀ H : HGraph, hypothesize K cfg segs = some H →
        List.Sorted faceLe H.faces ∧ List.Sorted vertLe H.vertices ∧
          List.Sorted edgeLe H.edges := by
  refine ⟨rfl, fun _ => rfl, ?_⟩
  intro H hH
  unfold hypothesize at hH
  by_cases hc : ((segs.map Segment.plane).length < 2 ||
      allParallelNoncoincident (segs.map Segment.plane)) = true
  · rw [if_pos hc] at hH
    injection hH with h
    subst h
    exact ⟨List.sorted_nil, List.sorted_nil, List.sorted_nil⟩
  · rw [if_neg hc] at hH
    cases harr : K.arrange (segs.map Segment.plane) (bbox cfg segs) with
    | none =>
      rw [harr] at hH
      cases hH
    | some raws =>
      rw [harr] at hH
      injection hH with h
      subst h
      refine ⟨List.sorted_insertionSort faceLe _,
        List.sorted_insertionSort vertLe _, ?_⟩
      exact List.Pairwise.map _ (fun a b hab => hab)
        (List.sorted_insertionSort pairLe _)

/-- Witness for C4: a single-plane input yields the (trivially sorted) empty
hypothesis graph. -/
theorem deterministic_reconstruction_witness :
    hypothesize trivKernel cfg0 [sampleSegment] = some emptyGraph ∧
      List.Sorted faceLe emptyGraph.faces :=
  ⟨rfl,
    ((deterministic_reconstruction trivKernel solverInf cfg0
      [sampleSegment]).2.2 emptyGraph rfl).1⟩

/-- C5: a planar segment with fewer than 3 projected points, or all projected
points collinear in 2D, gets an empty alpha-shape mesh, and every candidate
face the hypothesis generator produces on that segment's plane receives
confidence 0 (coverage = 0 everywhere on the plane). -/
theorem degenerate_segment_zero_confidence (K : GeomKernel) (cfg : Config)
    (segs : List Segment) (i : ℕ) (s : Segment) (H : HGraph)
    (hs : segs.getD i dummySegment = s)
    (hdeg : (s.points.map (K.project s.plane)).length < 3 ∨
      collinear2 (s.points.map (K.project s.plane)) = true)
    (hH : hypothesize K cfg segs = some H) :
    alphaShape K cfg s = [] ∧
      ∀ f ∈ H.faces, f.planeIdx = i → f.conf = 0 := by
  have halpha := alphaShape_degenerate K cfg s hdeg
  refine ⟨halpha, ?_⟩
  intro f hf hfi
  unfold hypothesize at hH
  by_cases hc : ((segs.map Segment.plane).length < 2 ||
      allParallelNoncoincident (segs.map Segment.plane)) = true
  · rw [if_pos hc] at hH
    injection hH with h
    subst h
    simp [emptyGraph] at hf
  · rw [if_neg hc] at hH
    cases harr : K.arrange (segs.map Segment.plane) (bbox cfg segs) with
    | none =>
      rw [harr] at hH
      cases hH
    | some raws =>
      rw [harr] at hH
      injection hH with h
      subst h
      have hf' : f ∈ raws.map (scoreFace K cfg segs) := by
        simpa [buildGraph] using hf
      obtain ⟨r, _, rfl⟩ := List.mem_map.mp hf'
      have hri : r.planeIdx = i := hfi
      show confOf K (alphaShape K cfg (segs.getD r.planeIdx dummySegment)) r = 0
      rw [hri, hs, halpha]
      simp [confOf]

/-- Witness for C5: a two-point segment gets an empty alpha shape. -/
theorem degenerate_segment_zero_confidence_witness :
    alphaShape trivKernel cfg0 degenerateSegment = [] :=
  (degenerate_segment_zero_confidence trivKernel cfg0 [degenerateSegment] 0
    degenerateSegment emptyGraph rfl (Or.inl (by decide)) rfl).1

/-- C6: when the plane arrangement yields zero candidate faces — fewer than
two supporting planes, or all planes parallel with a non-coincident pair —
the hypothesis generator returns the empty graph, and `reconstruct` emits the
empty mesh. -/
theorem degenerate_arrangement_empty_output (K : GeomKernel) (solver : Solver)
    (cfg : Config) (segs : List Segment)
    (hdeg : (segs.map Segment.plane).length < 2 ∨
      allParallelNoncoincident (segs.map Segment.plane) = true) :
    hypothesize K cfg segs = some emptyGraph ∧
      (validInput cfg segs = true →
        reconstruct K solver cfg segs = Except.ok (emptyMesh, emptyDiag)) := by
  have hc : ((segs.map Segment.plane).length < 2 ||
      allParallelNoncoincident (segs.map Segment.plane)) = true := by
    simp only [Bool.or_eq_true, decide_eq_true_eq]
    exact hdeg
  have h1 : hypothesize K cfg segs = some emptyGraph := by
    unfold hypothesize
    rw [if_pos hc]
  refine ⟨h1, fun hv => ?_⟩
  unfold reconstruct
  rw [if_pos hv, h1]
  rfl

/-- Witness for C6: a single input plane produces empty output. -/
theorem degenerate_arrangement_empty_output_witness :
    hypothesize trivKernel cfg0 [sampleSegment] = some emptyGraph ∧
      reconstruct trivKernel solverInf cfg0 [sampleSegment] =
        Except.ok (emptyMesh, emptyDiag) := by
  have h := degenerate_arrangement_empty_output trivKernel solverInf cfg0
    [sampleSegment] (Or.inl (by decide))
  exact ⟨h.1, h.2 (by norm_num [validInput, cfg0, sampleSegment])⟩

/-- C7: with all objective weight on complexity (`complexity_weight = 1`,
`fit_weight = 0`, `coverage_weight = 0`), the all-zero selection is feasible
and attains the minimum of the face-selection objective over all feasible
solutions: the empty mesh is optimal. -/
theorem complexity_weight_one_empty_optimal (cfg : Config) (H : HGraph)
    (hc : cfg.complexity_weight = 1) (hf : cfg.fit_weight = 0)
    (hv : cfg.coverage_weight = 0) :
    feasible cfg H (List.replicate H.faces.length false)
        (List.replicate H.edges.length false)
        (List.replicate H.edges.length false) ∧
      ∀ x y z : List Bool, feasible cfg H x y z →
        objective cfg H (List.replicate H.faces.length false)
            (List.replicate H.edges.length false) ≤ objective cfg H x y := by
  refine ⟨feasible_zeros cfg H, ?_⟩
  intro x y z _
  unfold objective
  rw [hc, hf, hv, sharpSel_zeros]
  simp only [zero_mul, one_mul, Nat.cast_zero, zero_div, zero_add, add_zero]
  positivity

/-- Witness for C7 at a concrete graph and a concrete feasible nonzero
solution. -/
theorem complexity_weight_one_empty_optimal_witness :
    feasible cfg1 sampleGraph (List.replicate sampleGraph.faces.length false)
        (List.replicate sampleGraph.edges.length false)
        (List.replicate sampleGraph.edges.length false) ∧
      objective cfg1 sampleGraph
          (List.replicate sampleGraph.faces.length false)
          (List.replicate sampleGraph.edges.length false) ≤
        objective cfg1 sampleGraph [true, true] [true] := by
  have h := complexity_weight_one_empty_optimal cfg1 sampleGraph rfl rfl rfl
  exact ⟨h.1, h.2 [true, true] [true] [true] (by decide)⟩

end PolyFit
